import Mathlib

/-!
Verification of the MAX78000 timer register access layer.

The repository's `src/src/timer/registers.rs` declares the timer register
layout (offsets, bit spans, access modes, device ports) via the
`make_device!` macro.  The layout below is a direct transcription of that
file.  The bitfield primitive and the accessor machinery are provided by
the `hal_macros`/`hal_macros_derive` crates of the repository, whose source
is not available here; those operations are modelled from the spec, as
marked on each definition.
-/

namespace Hal

/-- The four hardware access modes of a bit field, as used in the
`#[bit(..)]` attributes of `registers.rs`. -/
inductive AccessMode where
  | RW
  | RO
  | RW1C
  | RW1O
deriving DecidableEq, Repr

/-- One bit field declaration: register byte offset, starting bit index,
width in bits, and access mode.  Mirrors one `#[bit(span, MODE, offset)]`
attribute of `registers.rs`. -/
structure BitSpec where
  offset : Nat
  start : Nat
  width : Nat
  mode : AccessMode
deriving DecidableEq, Repr

/-- Timer register byte offsets, transcribed from the `rro` module of
`registers.rs` (MAX78000 User Guide Table 19-8). -/
def TMR_CNT : Nat := 0x0000

/-- Timer Compare Register offset. -/
def TMR_CMP : Nat := 0x0004

/-- Timer PWM Register offset. -/
def TMR_PWM : Nat := 0x0008

/-- Timer Interrupt Register offset. -/
def TMR_INTFL : Nat := 0x000C

/-- Timer Control Register offset. -/
def TMR_CTRL0 : Nat := 0x0010

/-- Timer Non-Overlapping Compare Register offset. -/
def TMR_NOLCMP : Nat := 0x0014

/-- Timer Configuration Register offset. -/
def TMR_CTRL1 : Nat := 0x0018

/-- Timer Wake-up Status Register offset. -/
def TMR_WKFL : Nat := 0x001C

/-- The timer register layout: every field declared in the `make_device!`
invocation of `registers.rs`, in source order, with its name, bit span
(`#[bit(a..=b, ...)]` becomes `start := a, width := b - a + 1`; a single
`#[bit(n, ...)]` becomes `start := n, width := 1`), access mode and
register offset. -/
def timerFields : List (String × BitSpec) := [
  ("timer_count", ⟨TMR_CNT, 0, 32, .RW⟩),
  ("timer_compare_value", ⟨TMR_CMP, 0, 32, .RW⟩),
  ("pwm", ⟨TMR_PWM, 0, 32, .RW⟩),
  ("timerb_write_protect_in_dual_timer_mode", ⟨TMR_INTFL, 24, 1, .RW⟩),
  ("timerb_write_done", ⟨TMR_INTFL, 25, 1, .RO⟩),
  ("timerb_interrupt_event", ⟨TMR_INTFL, 16, 1, .RW1C⟩),
  ("timerb_dual_timer_mode_write_protect", ⟨TMR_INTFL, 9, 1, .RW⟩),
  ("timera_write_done", ⟨TMR_INTFL, 8, 1, .RO⟩),
  ("timera_interrupt_event", ⟨TMR_INTFL, 0, 1, .RW1C⟩),
  ("timerb_enable", ⟨TMR_CTRL0, 31, 1, .RW⟩),
  ("timerb_clock_enable", ⟨TMR_CTRL0, 30, 1, .RW⟩),
  ("timeb_reset", ⟨TMR_CTRL0, 29, 1, .RW1O⟩),
  ("timerb_prescaler_select", ⟨TMR_CTRL0, 20, 4, .RW⟩),
  ("timerb_mode_select", ⟨TMR_CTRL0, 16, 4, .RW⟩),
  ("timera_enable", ⟨TMR_CTRL0, 15, 1, .RW⟩),
  ("timera_clock_enable", ⟨TMR_CTRL0, 14, 1, .RW⟩),
  ("timea_reset", ⟨TMR_CTRL0, 13, 1, .RW1O⟩),
  ("timera_pwm_output_phi_alpha_prime_disable", ⟨TMR_CTRL0, 12, 1, .RW⟩),
  ("timera_pwm_output_phi_alpha_prime_polarity_bit", ⟨TMR_CTRL0, 11, 1, .RW⟩),
  ("timera_pwm_output_phi_alpha_polarity_bit", ⟨TMR_CTRL0, 10, 1, .RW⟩),
  ("timera_timerb_pwm_synchronization_mode", ⟨TMR_CTRL0, 9, 1, .RW⟩),
  ("timera_polarity", ⟨TMR_CTRL0, 8, 1, .RW⟩),
  ("timera_prescaler_select", ⟨TMR_CTRL0, 4, 4, .RW⟩),
  ("timera_mode_select", ⟨TMR_CTRL0, 0, 4, .RW⟩),
  ("timera_non_overlapping_high_compare_1", ⟨TMR_NOLCMP, 24, 8, .RW⟩),
  ("timera_non_overlapping_low_compare_1", ⟨TMR_NOLCMP, 16, 8, .RW⟩),
  ("timera_non_overlapping_high_compare_0", ⟨TMR_NOLCMP, 8, 8, .RW⟩),
  ("timera_non_overlapping_low_compare_0", ⟨TMR_NOLCMP, 0, 8, .RW⟩),
  ("bit32_cascade_timer_enable", ⟨TMR_CTRL1, 31, 1, .RW⟩),
  ("timerb_wakeup_function", ⟨TMR_CTRL1, 28, 1, .RW⟩),
  ("timerb_software_event_capture", ⟨TMR_CTRL1, 27, 1, .RW⟩),
  ("timerb_event_capture_selection", ⟨TMR_CTRL1, 25, 2, .RW⟩),
  ("timerb_interrupt_enable", ⟨TMR_CTRL1, 24, 1, .RW⟩),
  ("timerb_negative_edge_trigger_for_event", ⟨TMR_CTRL1, 23, 1, .RW⟩),
  ("timerb_event_selection", ⟨TMR_CTRL1, 20, 3, .RW⟩),
  ("timerb_clock_ready_status", ⟨TMR_CTRL1, 19, 1, .RO⟩),
  ("timerb_clock_enable_status", ⟨TMR_CTRL1, 18, 1, .RO⟩),
  ("timerb_clock_source", ⟨TMR_CTRL1, 16, 2, .RW⟩),
  ("output_b_enable", ⟨TMR_CTRL1, 14, 1, .RW⟩),
  ("output_enable", ⟨TMR_CTRL1, 13, 1, .RW⟩),
  ("timera_wakeup_function", ⟨TMR_CTRL1, 12, 1, .RW⟩),
  ("timera_software_event_capture", ⟨TMR_CTRL1, 11, 1, .RW⟩),
  ("timera_event_capture_selection", ⟨TMR_CTRL1, 9, 2, .RW⟩),
  ("timera_interrupt_enable", ⟨TMR_CTRL1, 8, 1, .RW⟩),
  ("timera_negative_edge_trigger_for_event", ⟨TMR_CTRL1, 7, 1, .RW⟩),
  ("timera_event_selection", ⟨TMR_CTRL1, 4, 3, .RW⟩),
  ("timera_clock_ready", ⟨TMR_CTRL1, 3, 1, .RO⟩),
  ("timera_clock_enable2", ⟨TMR_CTRL1, 2, 1, .RW⟩),
  ("timera_clock_source", ⟨TMR_CTRL1, 0, 2, .RW⟩),
  ("timerb_wakeup_event", ⟨TMR_WKFL, 16, 1, .RW1C⟩),
  ("timera_wakeup_event", ⟨TMR_WKFL, 0, 1, .RW1C⟩)
]

/-- Modelled from the spec: the error taxonomy of section 7 of the spec
(the accessor machinery that reports these lives in the `hal_macros`
crates, not under `src/`). -/
inductive Error where
  | PortIndexOutOfRange
  | ReadOnlyViolation
  | FieldWidthOverflow
deriving DecidableEq, Repr

/-- Modelled from the spec: the low `width`-bit mask used by the bitfield
primitive. -/
def mask (width : Nat) : Nat := 2 ^ width - 1

/-- Modelled from the spec: `extract(word, start, width)` of the bitfield
primitive — logical right-shift by `start`, then mask to `width` low bits. -/
def extract (word start width : Nat) : Nat := (word >>> start) &&& mask width

/-- Modelled from the spec: `insert(word, start, width, value)` of the
bitfield primitive — `value` is masked to `width` bits, the target span of
`word` is cleared via AND-mask, then the shifted value is OR-ed in. -/
def insert (word start width value : Nat) : Nat :=
  (word &&& (mask 32 ^^^ (mask width <<< start))) ||| ((value &&& mask width) <<< start)

/-- The 32-bit mask covering every register bit outside the field's span:
the complement, within a 32-bit word, of `mask width <<< start`. -/
def outsideMask (s : BitSpec) : Nat := mask 32 ^^^ (mask s.width <<< s.start)

/-- Modelled from the spec: field read — `extract` on a fresh read of the
field's register word (same for all four access modes). -/
def fieldRead (s : BitSpec) (reg : Nat) : Nat := extract reg s.start s.width

/-- Outcome of a successful write: the register word after the access
(per the hardware contract of the field's mode) and the list of words
actually stored to the register, in order. -/
structure WriteOutcome where
  newReg : Nat
  stores : List Nat
deriving DecidableEq, Repr

/-- Modelled from the spec: the per-mode write protocol of the bitfield
primitive (section 4.1), implemented by the `hal_macros` crates.
`RW`: read-modify-write the full register via `insert`.
`RO`: no hardware write, `ReadOnlyViolation` reported to the caller.
`RW1C`/`RW1O`: with intent 0 no hardware access at all; otherwise one
single store of the word that is all zero except the target field set to
the caller's masked value.  The resulting register word follows the
hardware contract: an `RW1C` store clears exactly the 1-bits stored, an
`RW1O` store sets them (before any autonomous hardware clear). -/
def writeField (s : BitSpec) (reg v : Nat) : Except Error WriteOutcome :=
  match s.mode with
  | .RW =>
      .ok { newReg := insert reg s.start s.width v,
            stores := [insert reg s.start s.width v] }
  | .RO => .error .ReadOnlyViolation
  | .RW1C =>
      if v &&& mask s.width == 0 then
        .ok { newReg := reg, stores := [] }
      else
        .ok { newReg := reg &&& (mask 32 ^^^ ((v &&& mask s.width) <<< s.start)),
              stores := [(v &&& mask s.width) <<< s.start] }
  | .RW1O =>
      if v &&& mask s.width == 0 then
        .ok { newReg := reg, stores := [] }
      else
        .ok { newReg := reg ||| ((v &&& mask s.width) <<< s.start),
              stores := [(v &&& mask s.width) <<< s.start] }

/-- The register word after a `writeField`; on an error no store happened,
so the register is unchanged. -/
def regAfterWrite (s : BitSpec) (reg v : Nat) : Nat :=
  match writeField s reg v with
  | .ok o => o.newReg
  | .error _ => reg

/-- The words actually stored to hardware by a `writeField`; on an error
none were. -/
def storesOfWrite (s : BitSpec) (reg v : Nat) : List Nat :=
  match writeField s reg v with
  | .ok o => o.stores
  | .error _ => []

/-- Modelled from the spec: `toggle()` accessor construction (section 4.2).
For `RW1C`/`RW1O` fields the combination is rejected at
construction/definition time (`none`): no runtime toggle exists.  For `RW`
and `RO` fields a runtime toggle is constructed; it composes read and
write, so on an `RO` field it fails with `ReadOnlyViolation` at run time. -/
def toggleAccessor (s : BitSpec) : Option (Nat → Except Error WriteOutcome) :=
  match s.mode with
  | .RW1C => none
  | .RW1O => none
  | .RW => some (fun reg => writeField s reg (fieldRead s reg ^^^ 1))
  | .RO => some (fun reg => writeField s reg (fieldRead s reg ^^^ 1))

/-- Run a constructed toggle accessor on a register word; `none` when the
toggle was already rejected at construction time. -/
def runToggle (s : BitSpec) (reg : Nat) : Option (Except Error WriteOutcome) :=
  (toggleAccessor s).map (fun t => t reg)

/-- Modelled from the spec: base address of the first timer instance, from
the external device-port address table (`crate::memory_map::mmio`, not
under `src/`); an opaque fixed non-zero address per the MAX78000 memory
map. -/
def TIMER_0 : Nat := 0x40010000

/-- Modelled from the spec: base address of the second timer instance (see
`TIMER_0`). -/
def TIMER_1 : Nat := 0x40011000

/-- Modelled from the spec: base address of the third timer instance (see
`TIMER_0`). -/
def TIMER_2 : Nat := 0x40012000

/-- A device: the ordered list of base addresses of its physical instances
plus its field layout. -/
structure Device where
  ports : List Nat
  fields : List (String × BitSpec)

/-- The timer device of `registers.rs`: `device_ports(mmio::TIMER_0,
mmio::TIMER_1, mmio::TIMER_2)` with the transcribed layout. -/
def timerDevice : Device := { ports := [TIMER_0, TIMER_1, TIMER_2], fields := timerFields }

/-- Modelled from the spec: `accessor_for(device, port_index, field)` —
fails with `PortIndexOutOfRange` when `port_index >= device.ports.len()`
(no hardware access attempted); otherwise resolves the absolute address
`device.ports[port_index] + field.offset`. -/
def accessor_for (d : Device) (i : Nat) (s : BitSpec) : Except Error Nat :=
  if i < d.ports.length then .ok (d.ports.getD i 0 + s.offset) else .error .PortIndexOutOfRange

/-- Whether the register at byte offset `off` contains both an `RW1C`
field and a plain `RW` field in the timer layout. -/
def mixesRW1CandRW (off : Nat) : Bool :=
  (timerFields.any fun p => p.2.offset == off && p.2.mode == .RW1C) &&
  (timerFields.any fun p => p.2.offset == off && p.2.mode == .RW)

theorem testBit_mask (w i : Nat) : (mask w).testBit i = decide (i < w) := by
  simp [mask]

theorem mask_lt (w : Nat) : mask w < 2 ^ w :=
  Nat.sub_lt (Nat.pos_pow_of_pos w (by omega)) one_pos

theorem and_mask_lt (v w : Nat) : v &&& mask w < 2 ^ w :=
  Nat.and_lt_two_pow v (mask_lt w)

theorem extract_insert_eq (word v s w : Nat) (h : s + w ≤ 32) :
    extract (insert word s w v) s w = v &&& mask w := by
  apply Nat.eq_of_testBit_eq
  intro i
  simp only [extract, insert, mask, Nat.testBit_and, Nat.testBit_or, Nat.testBit_xor,
    Nat.testBit_shiftLeft, Nat.testBit_shiftRight, Nat.testBit_two_pow_sub_one]
  rcases Nat.lt_or_ge i w with hi | hi
  · have h1 : s ≤ s + i := Nat.le_add_right _ _
    have h2 : s + i < 32 := by omega
    simp [h1, h2, hi, Nat.add_sub_cancel_left]
  · have hi2 : ¬ i < w := by omega
    simp [hi2]

theorem shifted_and_outside (x s w : Nat) (hx : x < 2 ^ w) (h : s + w ≤ 32) :
    (x <<< s) &&& (mask 32 ^^^ (mask w <<< s)) = 0 := by
  apply Nat.eq_of_testBit_eq
  intro i
  simp only [mask, Nat.testBit_and, Nat.testBit_xor, Nat.testBit_shiftLeft,
    Nat.testBit_two_pow_sub_one, Nat.zero_testBit]
  rcases Nat.lt_or_ge i s with hi | hi
  · simp [show ¬ i ≥ s by omega]
  · rcases Nat.lt_or_ge (i - s) w with hw | hw
    · have h32 : i < 32 := by omega
      simp [hi, hw, h32]
    · have hxb : x.testBit (i - s) = false :=
        Nat.testBit_lt_two_pow (lt_of_lt_of_le hx (Nat.pow_le_pow_right (by omega) hw))
      simp [hxb]

theorem insert_and_outside (word v s w : Nat) (h : s + w ≤ 32) :
    insert word s w v &&& (mask 32 ^^^ (mask w <<< s)) = word &&& (mask 32 ^^^ (mask w <<< s)) := by
  have hz := shifted_and_outside (v &&& mask w) s w (and_mask_lt v w) h
  calc insert word s w v &&& (mask 32 ^^^ (mask w <<< s))
      = (word &&& (mask 32 ^^^ (mask w <<< s)) &&& (mask 32 ^^^ (mask w <<< s))) |||
        ((v &&& mask w) <<< s &&& (mask 32 ^^^ (mask w <<< s))) := by
        simp [insert, Nat.and_distrib_right]
    _ = word &&& (mask 32 ^^^ (mask w <<< s)) := by
        simp [hz, Nat.and_assoc]

theorem and_not_shifted_outside (reg x s w : Nat) (hx : x < 2 ^ w) (h : s + w ≤ 32) :
    (reg &&& (mask 32 ^^^ (x <<< s))) &&& (mask 32 ^^^ (mask w <<< s)) =
      reg &&& (mask 32 ^^^ (mask w <<< s)) := by
  apply Nat.eq_of_testBit_eq
  intro i
  simp only [mask, Nat.testBit_and, Nat.testBit_xor, Nat.testBit_shiftLeft,
    Nat.testBit_two_pow_sub_one]
  rcases Nat.lt_or_ge i 32 with h32 | h32
  · rcases Nat.lt_or_ge i s with his | his
    · simp [show ¬ i ≥ s by omega, h32]
    · rcases Nat.lt_or_ge (i - s) w with hw | hw
      · simp [show i ≥ s from his, hw, h32]
      · have hxb : x.testBit (i - s) = false :=
          Nat.testBit_lt_two_pow (lt_of_lt_of_le hx (Nat.pow_le_pow_right (by omega) hw))
        simp [show i ≥ s from his, hw, hxb, h32]
  · have hs : ¬ i - s < w := by omega
    simp [show ¬ i < 32 by omega, hs]

theorem or_shifted_outside (reg x s w : Nat) (hx : x < 2 ^ w) (h : s + w ≤ 32) :
    (reg ||| (x <<< s)) &&& (mask 32 ^^^ (mask w <<< s)) =
      reg &&& (mask 32 ^^^ (mask w <<< s)) := by
  have hz := shifted_and_outside x s w hx h
  calc (reg ||| (x <<< s)) &&& (mask 32 ^^^ (mask w <<< s))
      = (reg &&& (mask 32 ^^^ (mask w <<< s))) ||| ((x <<< s) &&& (mask 32 ^^^ (mask w <<< s))) :=
        Nat.and_distrib_right _ _ _
    _ = reg &&& (mask 32 ^^^ (mask w <<< s)) := by simp [hz]

theorem timerFields_wf : ∀ p ∈ timerFields, 1 ≤ p.2.width ∧ p.2.start + p.2.width ≤ 32 := by
  decide

/-- C1: for every field of the timer layout declared with mode `RW` and
every 32-bit value `v`, a write followed by a read of the field yields
`v &&& mask width`, and every register bit outside the field's span is
unchanged by the write; an oversized `v` is silently masked, never an
error. -/
theorem rw_field_write_read (nm : String) (s : BitSpec)
    (hmem : (nm, s) ∈ timerFields) (hmode : s.mode = .RW) (reg v : Nat) :
    fieldRead s (regAfterWrite s reg v) = v &&& mask s.width ∧
    regAfterWrite s reg v &&& outsideMask s = reg &&& outsideMask s := by
  have hwf := (timerFields_wf _ hmem).2
  have hrw : regAfterWrite s reg v = insert reg s.start s.width v := by
    simp [regAfterWrite, writeField, hmode]
  rw [hrw]
  simp only [fieldRead, outsideMask]
  exact ⟨extract_insert_eq reg v s.start s.width hwf,
         insert_and_outside reg v s.start s.width hwf⟩

/-- C1 witness: the 4-bit `RW` field `timera_mode_select` at bits `0..=3`
of `TMR_CTRL0`, register word `0xA5`, written value `0x1F`: the write
truncates to `0xF`, the register becomes `0xAF`, bits `4..=31` unchanged. -/
theorem rw_field_write_read_witness :
    (fieldRead ⟨TMR_CTRL0, 0, 4, .RW⟩ (regAfterWrite ⟨TMR_CTRL0, 0, 4, .RW⟩ 0xA5 0x1F) =
        0x1F &&& mask 4 ∧
      regAfterWrite ⟨TMR_CTRL0, 0, 4, .RW⟩ 0xA5 0x1F &&& outsideMask ⟨TMR_CTRL0, 0, 4, .RW⟩ =
        0xA5 &&& outsideMask ⟨TMR_CTRL0, 0, 4, .RW⟩) ∧
    regAfterWrite ⟨TMR_CTRL0, 0, 4, .RW⟩ 0xA5 0x1F = 0xAF :=
  ⟨rw_field_write_read "timera_mode_select" ⟨TMR_CTRL0, 0, 4, .RW⟩ (by decide) rfl 0xA5 0x1F,
   by decide⟩

/-- C3: for every `width` in `1..=32` and every `start` with
`start + width ≤ 32`, `extract` after `insert` round-trips to the masked
value, for arbitrary `word` and `v`. -/
theorem extract_insert_roundtrip (word v start width : Nat) (h1 : 1 ≤ width)
    (h2 : start + width ≤ 32) :
    extract (insert word start width v) start width = v &&& mask width :=
  extract_insert_eq word v start width h2

/-- C3 witness: `word = 0xA5A5A5A5`, a 4-bit span at bit 8, `v = 0x1F`. -/
theorem extract_insert_roundtrip_witness :
    extract (insert 0xA5A5A5A5 8 4 0x1F) 8 4 = 0x1F &&& mask 4 :=
  extract_insert_roundtrip 0xA5A5A5A5 0x1F 8 4 (by decide) (by decide)

/-- C6: every field of the declared timer layout satisfies
`start + width ≤ 32`, so field extraction and insertion always stay within
the 32-bit register word and no access-time bounds failure can occur. -/
theorem layout_fields_within_word (nm : String) (s : BitSpec)
    (hmem : (nm, s) ∈ timerFields) : s.start + s.width ≤ 32 :=
  (timerFields_wf _ hmem).2

/-- C6 witness: the full-width field `timer_count` at bits `0..=31` of
`TMR_CNT`. -/
theorem layout_fields_within_word_witness :
    (BitSpec.mk TMR_CNT 0 32 .RW).start + (BitSpec.mk TMR_CNT 0 32 .RW).width ≤ 32 :=
  layout_fields_within_word "timer_count" ⟨TMR_CNT, 0, 32, .RW⟩ (by decide)

/-- C9: for every field of the timer layout declared `RW1C` or `RW1O`, the
toggle accessor is rejected at construction/definition time: no runtime
toggle on such a field exists. -/
theorem toggle_rejected_for_w1_fields (nm : String) (s : BitSpec)
    (hmem : (nm, s) ∈ timerFields) (hmode : s.mode = .RW1C ∨ s.mode = .RW1O) :
    toggleAccessor s = none := by
  rcases hmode with h | h <;> simp [toggleAccessor, h]

/-- C9 witness: the `RW1O` field `timeb_reset` at bit 29 of `TMR_CTRL0`. -/
theorem toggle_rejected_for_w1_fields_witness :
    toggleAccessor ⟨TMR_CTRL0, 29, 1, .RW1O⟩ = none :=
  toggle_rejected_for_w1_fields "timeb_reset" ⟨TMR_CTRL0, 29, 1, .RW1O⟩ (by decide) (Or.inr rfl)

/-- C10: every field of the timer layout declared `RW1C` or `RW1O` has
width exactly 1: the layout contains no multi-bit `RW1C`/`RW1O` field. -/
theorem w1_fields_single_bit (nm : String) (s : BitSpec)
    (hmem : (nm, s) ∈ timerFields) (hmode : s.mode = .RW1C ∨ s.mode = .RW1O) :
    s.width = 1 :=
  (by decide :
      ∀ p ∈ timerFields, (p.2.mode = .RW1C ∨ p.2.mode = .RW1O) → p.2.width = 1)
    (nm, s) hmem hmode

/-- C10 witness: the `RW1C` field `timerb_wakeup_event` at bit 16 of
`TMR_WKFL`. -/
theorem w1_fields_single_bit_witness :
    (BitSpec.mk TMR_WKFL 16 1 .RW1C).width = 1 :=
  w1_fields_single_bit "timerb_wakeup_event" ⟨TMR_WKFL, 16, 1, .RW1C⟩ (by decide) (Or.inl rfl)

/-- C2: for every field of the timer layout declared `RW1C` or `RW1O` and
any write whose masked value is non-zero (in particular intent bit 1), the
write performs exactly one hardware store, of the word that is all zero
except the field's span set to the masked value (its outside bits are 0);
under the hardware contract the register bits outside the span are left
untouched.  A write of intent 0 performs no hardware access at all and
leaves the register unchanged. -/
theorem w1_field_write (nm : String) (s : BitSpec) (hmem : (nm, s) ∈ timerFields)
    (hmode : s.mode = .RW1C ∨ s.mode = .RW1O) (reg v : Nat)
    (hv : v &&& mask s.width ≠ 0) :
    storesOfWrite s reg v = [(v &&& mask s.width) <<< s.start] ∧
    ((v &&& mask s.width) <<< s.start) &&& outsideMask s = 0 ∧
    regAfterWrite s reg v &&& outsideMask s = reg &&& outsideMask s ∧
    storesOfWrite s reg 0 = [] ∧ regAfterWrite s reg 0 = reg := by
  have hwf := (timerFields_wf _ hmem).2
  have hx := and_mask_lt v s.width
  have hb : (v &&& mask s.width == 0) = false := by
    simp [hv]
  rcases hmode with h | h
  · refine ⟨?_, ?_, ?_, ?_, ?_⟩
    · simp [storesOfWrite, writeField, h, hb]
    · exact shifted_and_outside _ _ _ hx hwf
    · simp only [regAfterWrite, writeField, h, hb, Bool.false_eq_true, if_false, outsideMask]
      exact and_not_shifted_outside reg _ s.start s.width hx hwf
    · simp [storesOfWrite, writeField, h]
    · simp [regAfterWrite, writeField, h]
  · refine ⟨?_, ?_, ?_, ?_, ?_⟩
    · simp [storesOfWrite, writeField, h, hb]
    · exact shifted_and_outside _ _ _ hx hwf
    · simp only [regAfterWrite, writeField, h, hb, Bool.false_eq_true, if_false, outsideMask]
      exact or_shifted_outside reg _ s.start s.width hx hwf
    · simp [storesOfWrite, writeField, h]
    · simp [regAfterWrite, writeField, h]

/-- C2 witness: the `RW1C` field `timera_interrupt_event` at bit 0 of
`TMR_INTFL`, register word `0x0001_0001` (bits 0 and 16 set, both bits
`RW1C` in the layout): writing intent 1 stores exactly `0x0000_0001`, and
bit 16 still reads as 1 afterwards. -/
theorem w1_field_write_witness :
    (storesOfWrite ⟨TMR_INTFL, 0, 1, .RW1C⟩ 0x00010001 1 =
        [(1 &&& mask 1) <<< 0] ∧
      ((1 &&& mask 1) <<< 0) &&& outsideMask ⟨TMR_INTFL, 0, 1, .RW1C⟩ = 0 ∧
      regAfterWrite ⟨TMR_INTFL, 0, 1, .RW1C⟩ 0x00010001 1 &&&
          outsideMask ⟨TMR_INTFL, 0, 1, .RW1C⟩ =
        0x00010001 &&& outsideMask ⟨TMR_INTFL, 0, 1, .RW1C⟩ ∧
      storesOfWrite ⟨TMR_INTFL, 0, 1, .RW1C⟩ 0x00010001 0 = [] ∧
      regAfterWrite ⟨TMR_INTFL, 0, 1, .RW1C⟩ 0x00010001 0 = 0x00010001) ∧
    storesOfWrite ⟨TMR_INTFL, 0, 1, .RW1C⟩ 0x00010001 1 = [0x00000001] ∧
    Nat.testBit (regAfterWrite ⟨TMR_INTFL, 0, 1, .RW1C⟩ 0x00010001 1) 16 = true ∧
    fieldRead ⟨TMR_INTFL, 0, 1, .RW1C⟩ (regAfterWrite ⟨TMR_INTFL, 0, 1, .RW1C⟩ 0x00010001 1) = 0 :=
  ⟨w1_field_write "timera_interrupt_event" ⟨TMR_INTFL, 0, 1, .RW1C⟩ (by decide)
      (Or.inl rfl) 0x00010001 1 (by decide),
   by decide, by decide, by decide⟩

/-- C4: for every field of the timer layout declared `RO` and every value,
both write and toggle report `ReadOnlyViolation` to the caller, no word is
stored to hardware, and the value subsequently read from the field is
unchanged. -/
theorem ro_field_write_rejected (nm : String) (s : BitSpec)
    (hmem : (nm, s) ∈ timerFields) (hmode : s.mode = .RO) (reg v : Nat) :
    writeField s reg v = .error .ReadOnlyViolation ∧
    storesOfWrite s reg v = [] ∧
    fieldRead s (regAfterWrite s reg v) = fieldRead s reg ∧
    runToggle s reg = some (.error .ReadOnlyViolation) := by
  refine ⟨?_, ?_, ?_, ?_⟩
  · simp [writeField, hmode]
  · simp [storesOfWrite, writeField, hmode]
  · simp [regAfterWrite, writeField, hmode]
  · simp [runToggle, toggleAccessor, writeField, hmode]

/-- C4 witness: the `RO` field `timerb_write_done` at bit 25 of
`TMR_INTFL`, register word `0x0200_0000`, attempted value 0. -/
theorem ro_field_write_rejected_witness :
    writeField ⟨TMR_INTFL, 25, 1, .RO⟩ 0x02000000 0 = .error .ReadOnlyViolation ∧
    storesOfWrite ⟨TMR_INTFL, 25, 1, .RO⟩ 0x02000000 0 = [] ∧
    fieldRead ⟨TMR_INTFL, 25, 1, .RO⟩ (regAfterWrite ⟨TMR_INTFL, 25, 1, .RO⟩ 0x02000000 0) =
      fieldRead ⟨TMR_INTFL, 25, 1, .RO⟩ 0x02000000 ∧
    runToggle ⟨TMR_INTFL, 25, 1, .RO⟩ 0x02000000 = some (.error .ReadOnlyViolation) :=
  ro_field_write_rejected "timerb_write_done" ⟨TMR_INTFL, 25, 1, .RO⟩ (by decide) rfl
    0x02000000 0

/-- C5: for the timer device with its three ports and any field of the
layout, `accessor_for` succeeds for each port index below 3 and resolves
the absolute address `base + register offset`; the three resolved
addresses are pairwise distinct; and every index at or above 3 fails with
`PortIndexOutOfRange` (the model performs no hardware access on failure). -/
theorem accessor_resolution (nm : String) (s : BitSpec)
    (hmem : (nm, s) ∈ timerFields) :
    (∀ i, i < 3 → accessor_for timerDevice i s = .ok (timerDevice.ports.getD i 0 + s.offset)) ∧
    (∀ i, i < 3 → ∀ j, j < 3 → i ≠ j →
      timerDevice.ports.getD i 0 + s.offset ≠ timerDevice.ports.getD j 0 + s.offset) ∧
    (∀ i, 3 ≤ i → accessor_for timerDevice i s = .error .PortIndexOutOfRange) := by
  refine ⟨?_, ?_, ?_⟩
  · intro i hi
    have hlen : i < timerDevice.ports.length := by simp [timerDevice]; omega
    simp [accessor_for, hlen]
  · intro i hi j hj hij
    interval_cases i <;> interval_cases j <;>
      simp_all [timerDevice, TIMER_0, TIMER_1, TIMER_2]
  · intro i hi
    have hlen : ¬ i < timerDevice.ports.length := by simp [timerDevice]; omega
    simp [accessor_for, hlen]

/-- C5 witness: the field `timera_mode_select` of `TMR_CTRL0`: port 0
resolves to `0x4001_0010`, port 3 is out of range. -/
theorem accessor_resolution_witness :
    ((∀ i, i < 3 → accessor_for timerDevice i ⟨TMR_CTRL0, 0, 4, .RW⟩ =
        .ok (timerDevice.ports.getD i 0 + (BitSpec.mk TMR_CTRL0 0 4 .RW).offset)) ∧
      (∀ i, i < 3 → ∀ j, j < 3 → i ≠ j →
        timerDevice.ports.getD i 0 + (BitSpec.mk TMR_CTRL0 0 4 .RW).offset ≠
          timerDevice.ports.getD j 0 + (BitSpec.mk TMR_CTRL0 0 4 .RW).offset) ∧
      (∀ i, 3 ≤ i → accessor_for timerDevice i ⟨TMR_CTRL0, 0, 4, .RW⟩ =
        .error .PortIndexOutOfRange)) ∧
    accessor_for timerDevice 0 ⟨TMR_CTRL0, 0, 4, .RW⟩ = .ok 0x40010010 ∧
    accessor_for timerDevice 3 ⟨TMR_CTRL0, 0, 4, .RW⟩ = .error .PortIndexOutOfRange :=
  ⟨accessor_resolution "timera_mode_select" ⟨TMR_CTRL0, 0, 4, .RW⟩ (by decide),
   rfl, rfl⟩

/-- C7 counterexample: the claim that no register of the timer layout
contains both an `RW1C` field and a plain `RW` field is false: `TMR_INTFL`
(offset `0x000C`) declares `timerb_interrupt_event` (bit 16, `RW1C`) and
`timerb_write_protect_in_dual_timer_mode` (bit 24, `RW`). -/
theorem intfl_mixes_rw1c_and_rw :
    ("timerb_interrupt_event", (⟨TMR_INTFL, 16, 1, .RW1C⟩ : BitSpec)) ∈ timerFields ∧
    ("timerb_write_protect_in_dual_timer_mode", (⟨TMR_INTFL, 24, 1, .RW⟩ : BitSpec)) ∈
      timerFields ∧
    mixesRW1CandRW TMR_INTFL = true := by
  decide

/-- C7 (amended): `TMR_INTFL` (offset `0x000C`) is the only register of
the timer layout that contains both an `RW1C` field and a plain `RW`
field: for every declared field whose register mixes the two modes, that
register is `TMR_INTFL`. -/
theorem only_intfl_mixes_rw1c_and_rw (nm : String) (s : BitSpec)
    (hmem : (nm, s) ∈ timerFields) (hmix : mixesRW1CandRW s.offset = true) :
    s.offset = TMR_INTFL :=
  (by decide :
      ∀ p ∈ timerFields, mixesRW1CandRW p.2.offset = true → p.2.offset = TMR_INTFL)
    (nm, s) hmem hmix

/-- C7 witness: the `RW1C` field `timerb_interrupt_event` lives in a
mixing register, which is indeed `TMR_INTFL`. -/
theorem only_intfl_mixes_rw1c_and_rw_witness :
    (BitSpec.mk TMR_INTFL 16 1 .RW1C).offset = TMR_INTFL :=
  only_intfl_mixes_rw1c_and_rw "timerb_interrupt_event" ⟨TMR_INTFL, 16, 1, .RW1C⟩
    (by decide) (by decide)

/-- C8: any two distinct fields of the timer layout declared at the same
register offset have disjoint bit spans. -/
theorem same_register_fields_disjoint (p q : String × BitSpec)
    (hp : p ∈ timerFields) (hq : q ∈ timerFields) (hne : p ≠ q)
    (hoff : p.2.offset = q.2.offset) :
    p.2.start + p.2.width ≤ q.2.start ∨ q.2.start + q.2.width ≤ p.2.start :=
  (by decide :
      ∀ p ∈ timerFields, ∀ q ∈ timerFields, p ≠ q → p.2.offset = q.2.offset →
        p.2.start + p.2.width ≤ q.2.start ∨ q.2.start + q.2.width ≤ p.2.start)
    p hp q hq hne hoff

/-- C8 witness: `timera_mode_select` (bits `0..=3`) and
`timera_prescaler_select` (bits `4..=7`), both in `TMR_CTRL0`. -/
theorem same_register_fields_disjoint_witness :
    ("timera_mode_select", (⟨TMR_CTRL0, 0, 4, .RW⟩ : BitSpec)).2.start +
        ("timera_mode_select", (⟨TMR_CTRL0, 0, 4, .RW⟩ : BitSpec)).2.width ≤
      ("timera_prescaler_select", (⟨TMR_CTRL0, 4, 4, .RW⟩ : BitSpec)).2.start ∨
    ("timera_prescaler_select", (⟨TMR_CTRL0, 4, 4, .RW⟩ : BitSpec)).2.start +
        ("timera_prescaler_select", (⟨TMR_CTRL0, 4, 4, .RW⟩ : BitSpec)).2.width ≤
      ("timera_mode_select", (⟨TMR_CTRL0, 0, 4, .RW⟩ : BitSpec)).2.start :=
  same_register_fields_disjoint
    ("timera_mode_select", ⟨TMR_CTRL0, 0, 4, .RW⟩)
    ("timera_prescaler_select", ⟨TMR_CTRL0, 4, 4, .RW⟩)
    (by decide) (by decide) (by decide) (by decide)

end Hal
